import Mathlib

/-!
Verification development for the gostratum/examples order service.

The Go source is shallowly embedded: structs become structures, methods become
functions, in-place mutation becomes explicit state passing, `error` results
become `Option String` (domain errors carry their message) or typed error
values, and the effects `uuid.New().String()` and `time.Now()` become explicit
parameters (`genID`, `now`).  Go `float64` arithmetic is embedded abstractly:
the numeric type is a parameter `F` equipped with uninterpreted `zero`, `add`,
`mul`, `ofInt` and a boolean `lt` (class `GoNum`), so every theorem about
totals holds for any concrete semantics of those operations, IEEE-754 double
precision included; witnesses instantiate `F := Int`.

The repository keeps two generations of several files side by side (a legacy
and a refactored variant separated in the source blobs); both are embedded,
the legacy ones under names carrying a distinguishing suffix.
-/

/-- Abstract numeric operations standing for Go `float64` arithmetic.  No
algebraic laws are assumed, so the embedding is faithful to floating point:
`add`/`mul` are arbitrary, `ofInt` models the `float64(int)` conversion and
`lt` models the `<` comparison. -/
class GoNum (F : Type) where
  zero : F
  add : F → F → F
  mul : F → F → F
  ofInt : Int → F
  lt : F → F → Bool

/-- Integer instantiation used for concrete witnesses (any type with these operations works; floats are one such). -/
instance : GoNum Int where
  zero := 0
  add := fun a b => a + b
  mul := fun a b => a * b
  ofInt := fun n => n
  lt := fun a b => decide (a < b)

/-- Item from `internal/domain/order.go`: `ID uint`, `OrderID string`,
`SKU string`, `Qty int`, `Price float64`. -/
structure Item (F : Type) where
  ID : Nat
  OrderID : String
  SKU : String
  Qty : Int
  Price : F
deriving DecidableEq

/-- Order from `internal/domain/order.go`: `ID`, `UserID`, `Items`, `Status`,
`Total`, `CreatedAt` (time embedded as an integer timestamp). -/
structure Order (F : Type) where
  ID : String
  UserID : String
  Items : List (Item F)
  Status : String
  Total : F
  CreatedAt : Int
deriving DecidableEq

/-- NewOrder (order.go): fresh order with the generated id, status "pending",
empty item slice, zero-valued total and the construction timestamp.  The
generated `uuid.New().String()` and `time.Now()` are the `genID`/`now`
parameters. -/
def NewOrder (F : Type) [GoNum F] (genID : String) (now : Int) (userID : String) : Order F :=
  { ID := genID
    UserID := userID
    Items := []
    Status := "pending"
    Total := GoNum.zero
    CreatedAt := now }

/-- The total-recalculation loop of `AddItem`: `o.Total = 0; for _, i := range
o.Items { o.Total += i.Price * float64(i.Qty) }` — a left fold over the item
list in insertion order starting from zero. -/
def totalOf {F : Type} [GoNum F] (items : List (Item F)) : F :=
  items.foldl (fun acc i => GoNum.add acc (GoNum.mul i.Price (GoNum.ofInt i.Qty))) GoNum.zero

/-- AddItem (order.go): validates SKU, then quantity, then price, short
circuiting; on success appends the item and recomputes the total from scratch.
The Go method mutates the receiver and returns `error`; here it returns the
error (if any) together with the resulting order state. -/
def Order.AddItem {F : Type} [GoNum F] (o : Order F) (item : Item F) :
    Option String × Order F :=
  if item.SKU = "" then (some ("item SKU is required"), o)
  else if item.Qty ≤ 0 then (some ("item quantity must be positive"), o)
  else if GoNum.lt item.Price GoNum.zero then (some ("item price cannot be negative"), o)
  else
    (none, { o with Items := o.Items ++ [item], Total := totalOf (o.Items ++ [item]) })

/-- Validate, refactored variant (order.go lines 149-162): order-level checks
only — non-empty UserID and at least one item; item fields are not re-checked. -/
def Order.Validate {F : Type} [GoNum F] (o : Order F) : Option String :=
  if o.UserID = "" then some ("user_id is required")
  else if o.Items.length = 0 then some ("order must have at least one item")
  else none

/-- The per-item loop of the legacy Validate (order.go lines 71-81). -/
def itemsCheck {F : Type} [GoNum F] : List (Item F) → Option String
  | [] => none
  | item :: rest =>
    if item.SKU = "" then some ("all items must have a SKU")
    else if item.Qty ≤ 0 then some ("all items must have positive quantity")
    else if GoNum.lt item.Price GoNum.zero then some ("all items must have non-negative price")
    else itemsCheck rest

/-- Validate, legacy variant (order.go lines 62-84): the order-level checks
followed by a re-check of every item's SKU, quantity and price. -/
def Order.ValidateWithItemChecks {F : Type} [GoNum F] (o : Order F) : Option String :=
  if o.UserID = "" then some ("user_id is required")
  else if o.Items.length = 0 then some ("order must have at least one item")
  else itemsCheck o.Items

/-- User from `internal/domain/user.go` (the variant without avatar). -/
structure User where
  ID : String
  Name : String
  Email : String
  CreatedAt : Int
deriving DecidableEq

/-- Embedding of Go `unicode.IsSpace`: the Unicode White_Space property, which
is exactly the set Go tests — tab through carriage return (U+0009..U+000D,
so \v and \f included), space, NEL (U+0085), NBSP (U+00A0), Ogham space mark
(U+1680), the en-quad..hair-space range (U+2000..U+200A), line and paragraph
separators (U+2028, U+2029), narrow no-break space (U+202F), medium
mathematical space (U+205F) and ideographic space (U+3000). -/
def goIsSpace (c : Char) : Bool :=
  let n := c.toNat
  (9 ≤ n && n ≤ 13) || n == 32 || n == 133 || n == 160 ||
    n == 0x1680 || (0x2000 ≤ n && n ≤ 0x200A) ||
    n == 0x2028 || n == 0x2029 || n == 0x202F || n == 0x205F || n == 0x3000

/-- Embedding of Go `strings.TrimSpace`: drop `unicode.IsSpace` characters from
both ends of the string (computed structurally over the character list so that
it evaluates in the kernel). -/
def goTrimSpace (s : String) : String :=
  ⟨((s.data.dropWhile goIsSpace).reverse.dropWhile goIsSpace).reverse⟩

/-- Character-list test: the first list occurs at the head of the second. -/
def leadsWith : List Char → List Char → Bool
  | [], _ => true
  | _ :: _, [] => false
  | p :: ps, c :: cs => p == c && leadsWith ps cs

/-- Character-list test: the first list occurs somewhere inside the second. -/
def occursIn (sub : List Char) : List Char → Bool
  | [] => sub.isEmpty
  | c :: cs => leadsWith sub (c :: cs) || occursIn sub cs

/-- Embedding of Go `strings.Contains`: `sub` occurs somewhere in `s`. -/
def goContains (s sub : String) : Bool := occursIn sub.data s.data

/-- NewUser (user.go): fresh user with generated id and creation timestamp. -/
def NewUser (genID : String) (now : Int) (name email : String) : User :=
  { ID := genID, Name := name, Email := email, CreatedAt := now }

/-- Validate (user.go lines 31-46): trimmed name non-empty, trimmed email
non-empty, email contains "@" and ".". -/
def User.Validate (u : User) : Option String :=
  if goTrimSpace u.Name = "" then some ("name is required")
  else if goTrimSpace u.Email = "" then some ("email is required")
  else if !(goContains u.Email ("@")) || !(goContains u.Email (".")) then
    some ("email format is invalid")
  else none

namespace Avatar

/-- User from the avatar-enabled domain variant (unnamed part_006): same fields
plus `AvatarURL`. -/
structure User where
  ID : String
  Name : String
  Email : String
  AvatarURL : String
  CreatedAt : Int
deriving DecidableEq

/-- NewUser (part_006 lines 22-30): fresh user; `AvatarURL` starts empty. -/
def NewUser (genID : String) (now : Int) (name email : String) : User :=
  { ID := genID, Name := name, Email := email, AvatarURL := "", CreatedAt := now }

/-- UpdateAvatar (part_006 lines 32-35): stores the supplied string verbatim,
with no validation and no failure path. -/
def User.UpdateAvatar (u : User) (avatarURL : String) : User :=
  { u with AvatarURL := avatarURL }

/-- Validate (part_006): identical rules to the avatar-free variant. -/
def User.Validate (u : User) : Option String :=
  if goTrimSpace u.Name = "" then some ("name is required")
  else if goTrimSpace u.Email = "" then some ("email is required")
  else if !(goContains u.Email ("@")) || !(goContains u.Email (".")) then
    some ("email format is invalid")
  else none

end Avatar

/-- Go error values crossing the repository boundary: the three domain
sentinels of `internal/domain/errors.go` plus opaque errors; `errors.Is`
against a sentinel is equality here. -/
inductive GoError
  | errNotFound
  | errConflict
  | errInvalidInput
  | other (msg : String)
deriving DecidableEq

/-- Application-level error kinds of the use case layer (`interfaces.go`):
NotFound, Conflict, Invalid, Unavailable. -/
inductive UCErr
  | notFound
  | conflict
  | invalid
  | unavailable
deriving DecidableEq

/-- translateError (order_service.go lines 62-76 and repositories.go lines
134-148): recognized domain sentinels pass through re-typed, everything else
collapses to Unavailable. -/
def translateError : GoError → UCErr
  | .errNotFound => .notFound
  | .errConflict => .conflict
  | .errInvalidInput => .invalid
  | .other _ => .unavailable

/-- The item loop of `OrderService.CreateOrder`: appends each supplied item via
`AddItem`, aborting with Invalid on the first failure. -/
def addItemsLoop {F : Type} [GoNum F] (o : Order F) : List (Item F) → Except UCErr (Order F)
  | [] => .ok o
  | item :: rest =>
    match o.AddItem item with
    | (some _, _) => .error .invalid
    | (none, o') => addItemsLoop o' rest

/-- CreateOrder (order_service.go lines 24-45): build via NewOrder, append the
items (first failure aborts with Invalid), run order-level Validate, then save
through the repository, translating its error.  The boolean records whether
the repository save was invoked. -/
def OrderService.CreateOrder {F : Type} [GoNum F] (save : Order F → Option GoError)
    (genID : String) (now : Int) (userID : String) (items : List (Item F)) :
    Except UCErr (Order F) × Bool :=
  match addItemsLoop (NewOrder F genID now userID) items with
  | .error e => (.error e, false)
  | .ok o =>
    if (o.Validate).isSome then (.error .invalid, false)
    else
      match save o with
      | some e => (.error (translateError e), true)
      | none => (.ok o, true)

/-- GetOrder (order_service.go lines 48-59): look up by id, translating any
repository error. -/
def OrderService.GetOrder {F : Type} [GoNum F] (find : String → Except GoError (Order F))
    (id : String) : Except UCErr (Order F) :=
  match find id with
  | .error e => .error (translateError e)
  | .ok o => .ok o

/-- CreateUser, refactored variant (repositories.go lines 100-117): build via
NewUser, validate (failure yields Invalid), save through the repository,
translating its error. -/
def UserService.CreateUser (save : User → Option GoError) (genID : String) (now : Int)
    (name email : String) : Except UCErr User :=
  let user := NewUser genID now name email
  if (user.Validate).isSome then .error .invalid
  else
    match save user with
    | some e => .error (translateError e)
    | none => .ok user

/-- GetUser, refactored variant (repositories.go lines 120-131): look up by id,
translating any repository error. -/
def UserService.GetUser (find : String → Except GoError User) (id : String) :
    Except UCErr User :=
  match find id with
  | .error e => .error (translateError e)
  | .ok u => .ok u

/-- CreateUser, legacy ports-based variant (repositories.go lines 46-62): any
save failure is reported as Unavailable, with no sentinel recognition. -/
def UserService.CreateUserLegacy (save : User → Option GoError) (genID : String) (now : Int)
    (name email : String) : Except UCErr User :=
  let user := NewUser genID now name email
  if (user.Validate).isSome then .error .invalid
  else
    match save user with
    | some _ => .error .unavailable
    | none => .ok user

/-- GetUser, legacy ports-based variant (repositories.go lines 64-76): the
repository error is returned to the caller unmodified. -/
def UserService.GetUserLegacy (find : String → Except GoError User) (id : String) :
    Except GoError User :=
  find id

/-- Database-driver outcomes observed by the GORM adapters: the two
distinguished gorm errors plus opaque failures. -/
inductive DBErr
  | duplicatedKey
  | recordNotFound
  | other (msg : String)
deriving DecidableEq

/-- A raw (non-sentinel) database error forwarded unmapped by the refactored
adapters. -/
def dbErrToGoError : DBErr → GoError
  | .duplicatedKey => .other ("duplicated key not allowed")
  | .recordNotFound => .other ("record not found")
  | .other msg => .other msg

/-- UserRepo.Save, refactored variant (unnamed part_000 lines 41-62): a
duplicated-key violation becomes the domain Conflict sentinel, any other
database error is returned raw. -/
def UserRepo.Save (dbResult : Option DBErr) : Option GoError :=
  match dbResult with
  | some .duplicatedKey => some .errConflict
  | some e => some (dbErrToGoError e)
  | none => none

/-- UserRepo.FindByID, refactored variant (part_000 lines 64-78): record-not-
found becomes the NotFound sentinel, other errors are returned raw. -/
def UserRepo.FindByID (dbResult : Except DBErr User) : Except GoError User :=
  match dbResult with
  | .error .recordNotFound => .error .errNotFound
  | .error e => .error (dbErrToGoError e)
  | .ok u => .ok u

/-- UserRepo.Update, refactored variant (part_000 lines 80-102): duplicated key
becomes Conflict, other database errors are raw, zero rows affected becomes
NotFound.  The database outcome is an error or the affected row count. -/
def UserRepo.Update (dbResult : Except DBErr Nat) : Option GoError :=
  match dbResult with
  | .error .duplicatedKey => some .errConflict
  | .error e => some (dbErrToGoError e)
  | .ok n => if n = 0 then some .errNotFound else none

/-- UserRepo.Save, legacy variant (adapter/repo/user_repo.go lines 23-43):
validates the user itself (failure yields the usecase Invalid error), then maps
a duplicated-key violation to Invalid and any other database error to
Unavailable. -/
def UserRepo.SaveLegacy (u : User) (dbResult : Option DBErr) : Option UCErr :=
  if (u.Validate).isSome then some .invalid
  else
    match dbResult with
    | some .duplicatedKey => some .invalid
    | some _ => some .unavailable
    | none => none

/-- OrderRepo.Save, refactored variant (adapter/repo/order_repo.go): no error
mapping at all — the raw database error is returned for the use case layer to
translate. -/
def OrderRepo.Save (dbResult : Option DBErr) : Option GoError :=
  match dbResult with
  | some e => some (dbErrToGoError e)
  | none => none

/-- OrderRepo.FindByID, refactored variant (adapter/repo/order_repo.go):
record-not-found becomes the NotFound sentinel, other errors are raw. -/
def OrderRepo.FindByID {F : Type} [GoNum F] (dbResult : Except DBErr (Order F)) :
    Except GoError (Order F) :=
  match dbResult with
  | .error .recordNotFound => .error .errNotFound
  | .error e => .error (dbErrToGoError e)
  | .ok o => .ok o

/-- Concrete sample data used by the witnesses (values from the end-to-end
scenario in the specification and the domain tests). -/
def item1 : Item Int := { ID := 0, OrderID := "", SKU := "SKU1", Qty := 2, Price := 10 }

/-- Second sample item of the end-to-end scenario. -/
def item2 : Item Int := { ID := 0, OrderID := "", SKU := "SKU2", Qty := 1, Price := 15 }

/-- Sample item failing the SKU check. -/
def badSkuItem : Item Int := { ID := 0, OrderID := "", SKU := "", Qty := 1, Price := 1 }

/-- Sample freshly constructed order. -/
def ord0 : Order Int := NewOrder Int ("oid-1") 0 ("user-1")

/-- Sample order with non-empty UserID and one item whose SKU is empty
(reachable in Go by direct field assignment or deserialization). -/
def badItemOrder : Order Int :=
  { ID := "o1", UserID := "u1", Items := [badSkuItem], Status := "pending"
    Total := 0, CreatedAt := 0 }

/-- Sample valid user. -/
def sampleUser : User := { ID := "u1", Name := "Bob", Email := "bob@x.co", CreatedAt := 0 }

/-- Sample avatar-enabled user. -/
def sampleAvUser : Avatar.User :=
  { ID := "u1", Name := "Bob", Email := "bob@x.co", AvatarURL := "", CreatedAt := 0 }

/-! Helper lemmas shared by the claim theorems. -/

theorem addItem_ok_eq {F : Type} [GoNum F] (o : Order F) (item : Item F)
    (h1 : ¬ item.SKU = "") (h2 : ¬ item.Qty ≤ 0)
    (h3 : GoNum.lt item.Price GoNum.zero = false) :
    o.AddItem item =
      (none, { o with Items := o.Items ++ [item], Total := totalOf (o.Items ++ [item]) }) := by
  simp [Order.AddItem, h1, h2, h3]

theorem addItem_err_eq {F : Type} [GoNum F] (o : Order F) (item : Item F)
    (h : item.SKU = "" ∨ item.Qty ≤ 0 ∨ GoNum.lt item.Price GoNum.zero = true) :
    o.AddItem item =
      (some (if item.SKU = "" then "item SKU is required"
        else if item.Qty ≤ 0 then "item quantity must be positive"
        else "item price cannot be negative"), o) := by
  unfold Order.AddItem
  split_ifs with hs hq hp
  · rfl
  · rfl
  · rfl
  · rcases h with h | h | h
    · exact absurd h hs
    · exact absurd h hq
    · exact absurd h hp

theorem addItem_none_inv {F : Type} [GoNum F] {o : Order F} {item : Item F} {o' : Order F}
    (h : o.AddItem item = (none, o')) :
    o' = { o with Items := o.Items ++ [item], Total := totalOf (o.Items ++ [item]) } := by
  unfold Order.AddItem at h
  split_ifs at h <;> simp_all

theorem addItemsLoop_ok_of_valid {F : Type} [GoNum F] (items : List (Item F))
    (h : ∀ it ∈ items, ¬ it.SKU = "" ∧ ¬ it.Qty ≤ 0 ∧ GoNum.lt it.Price GoNum.zero = false) :
    ∀ o : Order F, ∃ o', addItemsLoop o items = .ok o' ∧
      o'.Items = o.Items ++ items ∧ o'.UserID = o.UserID := by
  induction items with
  | nil => exact fun o => ⟨o, rfl, by simp, rfl⟩
  | cons it rest ih =>
    intro o
    obtain ⟨h1, h2, h3⟩ := h it (List.mem_cons_self it rest)
    have step := addItem_ok_eq o it h1 h2 h3
    obtain ⟨o', hloop, hItems, hUid⟩ :=
      ih (fun x hx => h x (List.mem_cons_of_mem it hx))
        { o with Items := o.Items ++ [it], Total := totalOf (o.Items ++ [it]) }
    refine ⟨o', ?_, ?_, ?_⟩
    · simpa [addItemsLoop, step] using hloop
    · simpa using hItems
    · simpa using hUid

theorem addItemsLoop_error_of_invalid {F : Type} [GoNum F] (items : List (Item F))
    (h : ∃ it ∈ items, it.SKU = "" ∨ it.Qty ≤ 0 ∨ GoNum.lt it.Price GoNum.zero = true) :
    ∀ o : Order F, addItemsLoop o items = .error .invalid := by
  induction items with
  | nil => simp at h
  | cons it rest ih =>
    intro o
    by_cases hbad : it.SKU = "" ∨ it.Qty ≤ 0 ∨ GoNum.lt it.Price GoNum.zero = true
    · have step := addItem_err_eq o it hbad
      simp [addItemsLoop, step]
    · push_neg at hbad
      obtain ⟨h1, h2, h3⟩ := hbad
      have step := addItem_ok_eq o it h1 (not_le.mpr h2) (by simpa using h3)
      have hrest : ∃ x ∈ rest, x.SKU = "" ∨ x.Qty ≤ 0 ∨ GoNum.lt x.Price GoNum.zero = true := by
        obtain ⟨x, hx, hbadx⟩ := h
        rcases List.mem_cons.mp hx with he | hr
        · subst he
          rcases hbadx with hb | hb | hb
          · exact absurd hb h1
          · exact absurd hb (not_le.mpr h2)
          · exact absurd hb (by simpa using h3)
        · exact ⟨x, hr, hbadx⟩
      simp [addItemsLoop, step, ih hrest]

theorem user_validate_none_iff (u : User) :
    u.Validate = none ↔
      (¬ goTrimSpace u.Name = "" ∧ ¬ goTrimSpace u.Email = "" ∧
        goContains u.Email ("@") = true ∧ goContains u.Email (".") = true) := by
  unfold User.Validate
  split_ifs with h1 h2 h3
  · simp [h1]
  · simp [h1, h2]
  · simp only [Bool.or_eq_true, Bool.not_eq_true'] at h3
    constructor
    · intro hc; cases hc
    · rintro ⟨-, -, ha, hd⟩
      rcases h3 with hh | hh
      · rw [ha] at hh; cases hh
      · rw [hd] at hh; cases hh
  · simp only [Bool.or_eq_true, Bool.not_eq_true', not_or, Bool.not_eq_false] at h3
    simp [h1, h2, h3.1, h3.2]

theorem order_validate_none_of {F : Type} [GoNum F] (o : Order F)
    (h1 : ¬ o.UserID = "") (h2 : ¬ o.Items = []) : o.Validate = none := by
  unfold Order.Validate
  rw [if_neg h1, if_neg (by simpa [List.length_eq_zero] using h2)]

theorem newUser_validate (genID : String) (now : Int) (name email : String) :
    (NewUser genID now name email).Validate = none ↔
      (¬ goTrimSpace name = "" ∧ ¬ goTrimSpace email = "" ∧
        goContains email ("@") = true ∧ goContains email (".") = true) := by
  simpa [NewUser] using user_validate_none_iff (NewUser genID now name email)

/-! Claim theorems. -/

/-- C1: after every successful AddItem, the Total field equals the sum over the
whole Items sequence of price times quantity, computed as a left fold from zero
in insertion order (`totalOf`, the exact loop of the source).  The incoming
order is arbitrary and no assumption is placed on its incoming Total, which
reflects that the source recomputes the sum from scratch over the whole
sequence on each append; in particular the equation holds after each successful
AddItem in any sequence of calls starting from NewOrder. -/
theorem addItem_total_insertion_order {F : Type} [GoNum F] (o : Order F) (item : Item F)
    (o' : Order F) (h : o.AddItem item = (none, o')) :
    o'.Total = totalOf o'.Items := by
  have hx := addItem_none_inv h
  subst hx
  rfl

/-- Witness for C1: adding the first scenario item to a fresh order. -/
theorem addItem_total_insertion_order_witness :
    ((ord0.AddItem item1).2).Total = totalOf ((ord0.AddItem item1).2).Items :=
  addItem_total_insertion_order ord0 item1 ((ord0.AddItem item1).2) (by decide)

/-- C2: AddItem on an item with empty SKU, or non-positive quantity, or
negative price fails, returning the error of the first failing check in the
order SKU, quantity, price (short-circuiting), and leaves the Items sequence
and the Total field exactly as they were. -/
theorem addItem_rejects_invalid_item {F : Type} [GoNum F] (o : Order F) (item : Item F)
    (h : item.SKU = "" ∨ item.Qty ≤ 0 ∨ GoNum.lt item.Price GoNum.zero = true) :
    (o.AddItem item).2.Items = o.Items ∧ (o.AddItem item).2.Total = o.Total ∧
    (o.AddItem item).1 = some (if item.SKU = "" then "item SKU is required"
      else if item.Qty ≤ 0 then "item quantity must be positive"
      else "item price cannot be negative") := by
  rw [addItem_err_eq o item h]
  exact ⟨rfl, rfl, rfl⟩

/-- Witness for C2: an item with an empty SKU is rejected with the SKU error
and the order is untouched. -/
theorem addItem_rejects_invalid_item_witness :
    (ord0.AddItem badSkuItem).2.Items = ord0.Items ∧
    (ord0.AddItem badSkuItem).2.Total = ord0.Total ∧
    (ord0.AddItem badSkuItem).1 = some (if badSkuItem.SKU = "" then "item SKU is required"
      else if badSkuItem.Qty ≤ 0 then "item quantity must be positive"
      else "item price cannot be negative") :=
  addItem_rejects_invalid_item ord0 badSkuItem (Or.inl rfl)

/-- C8: NewOrder returns an order carrying the generated identifier (non-empty
whenever the generator output is, as `uuid.New().String()` always is), the
supplied user id, status "pending", an empty item sequence, a zero total, and
the construction timestamp; the constructor is total, performing no
validation. -/
theorem newOrder_fields {F : Type} [GoNum F] (genID : String) (now : Int) (userID : String)
    (h : ¬ genID = "") :
    (NewOrder F genID now userID).ID = genID ∧ ¬ (NewOrder F genID now userID).ID = "" ∧
    (NewOrder F genID now userID).UserID = userID ∧
    (NewOrder F genID now userID).Status = "pending" ∧
    (NewOrder F genID now userID).Items = [] ∧
    (NewOrder F genID now userID).Total = GoNum.zero ∧
    (NewOrder F genID now userID).CreatedAt = now :=
  ⟨rfl, h, rfl, rfl, rfl, rfl, rfl⟩

/-- Witness for C8 at a concrete generated id and timestamp. -/
theorem newOrder_fields_witness :
    (NewOrder Int ("oid-1") 0 ("user-1")).ID = "oid-1" ∧
    ¬ (NewOrder Int ("oid-1") 0 ("user-1")).ID = "" ∧
    (NewOrder Int ("oid-1") 0 ("user-1")).UserID = "user-1" ∧
    (NewOrder Int ("oid-1") 0 ("user-1")).Status = "pending" ∧
    (NewOrder Int ("oid-1") 0 ("user-1")).Items = [] ∧
    (NewOrder Int ("oid-1") 0 ("user-1")).Total = GoNum.zero ∧
    (NewOrder Int ("oid-1") 0 ("user-1")).CreatedAt = 0 :=
  @newOrder_fields Int _ ("oid-1") 0 ("user-1") (by decide)

/-- C9: a successful AddItem changes only the Items and Total fields — ID,
UserID, Status and CreatedAt are unchanged — and the new Items sequence is the
old one with the supplied item appended verbatim as its last element, all
previous items unchanged and in their relative order. -/
theorem addItem_frame {F : Type} [GoNum F] (o : Order F) (item : Item F) (o' : Order F)
    (h : o.AddItem item = (none, o')) :
    o'.ID = o.ID ∧ o'.UserID = o.UserID ∧ o'.Status = o.Status ∧
    o'.CreatedAt = o.CreatedAt ∧ o'.Items = o.Items ++ [item] := by
  have hx := addItem_none_inv h
  subst hx
  exact ⟨rfl, rfl, rfl, rfl, rfl⟩

/-- Witness for C9: appending a valid item to the fresh sample order. -/
theorem addItem_frame_witness :
    ((ord0.AddItem item2).2).ID = ord0.ID ∧ ((ord0.AddItem item2).2).UserID = ord0.UserID ∧
    ((ord0.AddItem item2).2).Status = ord0.Status ∧
    ((ord0.AddItem item2).2).CreatedAt = ord0.CreatedAt ∧
    ((ord0.AddItem item2).2).Items = ord0.Items ++ [item2] :=
  addItem_frame ord0 item2 ((ord0.AddItem item2).2) (by decide)

/-- C3 counterexample: the claim says Validate succeeds on every order with a
non-empty UserID and at least one item regardless of the item field values, but
the legacy Validate variant (order.go lines 62-84) re-checks the items and
fails on `badItemOrder`, whose single item has an empty SKU. -/
theorem order_validate_item_recheck_cex :
    ¬ badItemOrder.UserID = "" ∧ ¬ badItemOrder.Items = [] ∧
    ¬ Order.ValidateWithItemChecks badItemOrder = none := by
  refine ⟨by decide, by decide, by decide⟩

/-- C3 amended: the refactored Validate (order.go lines 149-162) succeeds
exactly when the UserID is non-empty and the Items sequence is non-empty,
regardless of the field values of the individual items, failing with the
Invalid validation error otherwise; the legacy variant (lines 62-84)
additionally requires every item to pass the item-level SKU, quantity and
price checks. -/
theorem order_validate_characterization {F : Type} [GoNum F] (o : Order F) :
    (o.Validate = none ↔ (¬ o.UserID = "" ∧ ¬ o.Items = [])) ∧
    (o.ValidateWithItemChecks = none ↔
      (¬ o.UserID = "" ∧ ¬ o.Items = [] ∧ itemsCheck o.Items = none)) := by
  constructor
  · unfold Order.Validate
    split_ifs with h1 h2
    · simp [h1]
    · simp [h1, List.length_eq_zero.mp h2]
    · simp [h1, List.length_eq_zero.not.mp h2]
  · unfold Order.ValidateWithItemChecks
    split_ifs with h1 h2
    · simp [h1]
    · simp [h1, List.length_eq_zero.mp h2]
    · simp [h1, List.length_eq_zero.not.mp h2]

/-- C4: with a repository whose save succeeds, CreateUser (refactored variant,
repositories.go lines 100-117) fails with Invalid exactly when the trimmed name
is empty, or the trimmed email is empty, or the email does not contain both an
"@" and a "." anywhere (so dubious addresses such as "a@b.c@d" pass); otherwise
it succeeds and the returned user carries the generated identifier — non-empty
whenever the generator output is, as `uuid.New().String()` always is — and the
creation timestamp. -/
theorem createUser_validation (genID : String) (now : Int) (name email : String) :
    (UserService.CreateUser (fun _ => none) genID now name email = .error .invalid ↔
      (goTrimSpace name = "" ∨ goTrimSpace email = "" ∨
        goContains email ("@") = false ∨ goContains email (".") = false)) ∧
    ((¬ goTrimSpace name = "" ∧ ¬ goTrimSpace email = "" ∧
        goContains email ("@") = true ∧ goContains email (".") = true) →
      UserService.CreateUser (fun _ => none) genID now name email =
        .ok { ID := genID, Name := name, Email := email, CreatedAt := now }) := by
  rcases hO : (NewUser genID now name email).Validate with _ | msg
  · obtain ⟨n1, n2, n3, n4⟩ := (newUser_validate genID now name email).mp hO
    have hrun : UserService.CreateUser (fun _ => none) genID now name email =
        .ok (NewUser genID now name email) := by
      simp [UserService.CreateUser, hO]
    rw [hrun]
    refine ⟨⟨fun hc => by simp at hc, fun hr => False.elim ?_⟩, fun _ => rfl⟩
    rcases hr with h | h | h | h
    · exact n1 h
    · exact n2 h
    · simp [n3] at h
    · simp [n4] at h
  · have hrun : UserService.CreateUser (fun _ => none) genID now name email =
        .error .invalid := by
      simp [UserService.CreateUser, hO]
    rw [hrun]
    have hfail : goTrimSpace name = "" ∨ goTrimSpace email = "" ∨
        goContains email ("@") = false ∨ goContains email (".") = false := by
      by_contra hno
      push_neg at hno
      obtain ⟨m1, m2, m3, m4⟩ := hno
      have hnone : (NewUser genID now name email).Validate = none :=
        (newUser_validate genID now name email).mpr
          ⟨m1, m2, by simpa using m3, by simpa using m4⟩
      rw [hO] at hnone
      exact Option.noConfusion hnone
    refine ⟨⟨fun _ => hfail, fun _ => rfl⟩, fun hv => False.elim ?_⟩
    have hnone : (NewUser genID now name email).Validate = none :=
      (newUser_validate genID now name email).mpr hv
    rw [hO] at hnone
    exact Option.noConfusion hnone

/-- Witness for C4: the deliberately permissive email check accepts
"a@b.c@d" and the created user carries the generated id and timestamp. -/
theorem createUser_validation_witness :
    UserService.CreateUser (fun _ => none) ("u1") 0 ("Bob") ("a@b.c@d") =
      .ok { ID := "u1", Name := "Bob", Email := "a@b.c@d", CreatedAt := 0 } :=
  (createUser_validation ("u1") 0 ("Bob") ("a@b.c@d")).2 (by decide)

/-- C7: whenever some supplied item fails the AddItem validation, CreateOrder
(order_service.go lines 24-45) returns Invalid with the repository save never
invoked (the boolean instrument is false), for every save function — so no
partial order is persisted, no partial item list survives, and the items
preceding the failing one have no observable effect. -/
theorem createOrder_first_failure_aborts {F : Type} [GoNum F]
    (save : Order F → Option GoError) (genID : String) (now : Int) (userID : String)
    (items : List (Item F))
    (h : ∃ it ∈ items, it.SKU = "" ∨ it.Qty ≤ 0 ∨ GoNum.lt it.Price GoNum.zero = true) :
    OrderService.CreateOrder save genID now userID items = (.error .invalid, false) := by
  have hloop := addItemsLoop_error_of_invalid items h (NewOrder F genID now userID)
  simp [OrderService.CreateOrder, hloop]

/-- Witness for C7: a bad second item aborts the whole CreateOrder. -/
theorem createOrder_first_failure_aborts_witness :
    OrderService.CreateOrder (fun _ => none) ("oid-1") 0 ("user-1") [item1, badSkuItem] =
      (.error .invalid, false) :=
  createOrder_first_failure_aborts _ _ _ _ _
    ⟨badSkuItem, List.mem_cons_of_mem item1 (List.mem_cons_self badSkuItem []), Or.inl rfl⟩

/-- C5 counterexample: the claim says a recognized conflict sentinel from the
repository surfaces as the typed Conflict error, but the legacy ports-based
CreateUser (repositories.go lines 46-62) reports every save failure — the
conflict sentinel included — as Unavailable. -/
theorem repo_error_translation_cex :
    UserService.CreateUserLegacy (fun _ => some .errConflict) ("u1") 0 ("Bob") ("bob@x.co") =
      .error .unavailable ∧
    ¬ (UCErr.unavailable = UCErr.conflict) := by
  exact ⟨rfl, by decide⟩

/-- C5 amended: for the error-translating operations — OrderService.CreateOrder
and GetOrder, and the refactored UserService.CreateUser and GetUser — every
repository error surfaces through translateError: as Unavailable unless it is
one of the three recognized domain sentinels (not-found, conflict,
invalid-input), which surface as the corresponding typed NotFound, Conflict or
Invalid error; no repository error is swallowed or returned untranslated
there.  The legacy ports-based UserService instead collapses every save
failure to Unavailable and returns lookup errors unmodified. -/
theorem repo_error_translation (e : GoError) (id genID : String) (now : Int)
    (name email userID : String) (items : List (Item Int))
    (hu : ¬ goTrimSpace name = "" ∧ ¬ goTrimSpace email = "" ∧
      goContains email ("@") = true ∧ goContains email (".") = true)
    (ho : ¬ userID = "" ∧ ¬ items = [] ∧
      ∀ it ∈ items, ¬ it.SKU = "" ∧ ¬ it.Qty ≤ 0 ∧ GoNum.lt it.Price GoNum.zero = false) :
    UserService.GetUser (fun _ => .error e) id = .error (translateError e) ∧
    OrderService.GetOrder (fun _ => (Except.error e : Except GoError (Order Int))) id =
      .error (translateError e) ∧
    UserService.CreateUser (fun _ => some e) genID now name email =
      .error (translateError e) ∧
    (OrderService.CreateOrder (fun _ => some e) genID now userID items).1 =
      .error (translateError e) ∧
    (∀ e' : GoError, translateError e' = .unavailable ↔
      (¬ e' = .errNotFound ∧ ¬ e' = .errConflict ∧ ¬ e' = .errInvalidInput)) ∧
    translateError .errNotFound = .notFound ∧
    translateError .errConflict = .conflict ∧
    translateError .errInvalidInput = .invalid ∧
    (∀ e' : GoError, UserService.CreateUserLegacy (fun _ => some e') genID now name email =
      .error .unavailable) ∧
    (∀ e' : GoError, ∀ id' : String,
      UserService.GetUserLegacy (fun _ => .error e') id' = .error e') := by
  obtain ⟨hu1, hu2, hu3, hu4⟩ := hu
  obtain ⟨ho1, ho2, ho3⟩ := ho
  have hval : (NewUser genID now name email).Validate = none :=
    (newUser_validate genID now name email).mpr ⟨hu1, hu2, hu3, hu4⟩
  refine ⟨rfl, rfl, ?_, ?_, ?_, rfl, rfl, rfl, ?_, fun _ _ => rfl⟩
  · simp [UserService.CreateUser, hval]
  · obtain ⟨o', hloop, hItems, hUid⟩ :=
      addItemsLoop_ok_of_valid items ho3 (NewOrder Int genID now userID)
    have hvalo : o'.Validate = none := by
      refine order_validate_none_of o' ?_ ?_
      · rw [hUid]; exact ho1
      · rw [hItems]; simpa [NewOrder] using ho2
    simp [OrderService.CreateOrder, hloop, hvalo]
  · intro e'
    cases e' <;> simp [translateError]
  · intro e'
    simp [UserService.CreateUserLegacy, hval]

/-- Witness for the amended C5 at the conflict sentinel and concrete valid
inputs. -/
theorem repo_error_translation_witness :
    UserService.GetUser (fun _ => .error GoError.errConflict) ("uid-9") =
      .error (translateError GoError.errConflict) :=
  (repo_error_translation GoError.errConflict ("uid-9") ("u1") 0 ("Bob") ("bob@x.co")
    ("user-1") [item1] (by decide) (by decide)).1

/-- C6 counterexample: the claim says a duplicate email surfaces as the
Conflict error kind, but the GORM user adapter at adapter/repo/user_repo.go
(lines 23-43) maps the duplicated-key violation to Invalid. -/
theorem duplicate_email_conflict_cex :
    UserRepo.SaveLegacy sampleUser (some .duplicatedKey) = some UCErr.invalid ∧
    ¬ (UCErr.invalid = UCErr.conflict) := by
  exact ⟨rfl, by decide⟩

/-- C6 amended: in the refactored adapters (unnamed part_000) a duplicated-key
violation — a duplicate email — on the user save is returned as the domain
Conflict sentinel and surfaces through the translating user service as the
Conflict error kind (likewise on the user update, which lies outside the four
core operations); the order repository mappings never produce the conflict
sentinel, so no order-side operation yields Conflict.  The legacy GORM user
adapter instead maps duplicated keys to Invalid. -/
theorem duplicate_email_conflict (genID : String) (now : Int) (name email : String)
    (hu : ¬ goTrimSpace name = "" ∧ ¬ goTrimSpace email = "" ∧
      goContains email ("@") = true ∧ goContains email (".") = true) :
    UserRepo.Save (some .duplicatedKey) = some .errConflict ∧
    UserService.CreateUser (fun _ => UserRepo.Save (some .duplicatedKey)) genID now name email =
      .error .conflict ∧
    UserRepo.Update (.error .duplicatedKey) = some .errConflict ∧
    (∀ db : Option DBErr, ¬ OrderRepo.Save db = some .errConflict) ∧
    (∀ db : Except DBErr (Order Int), ¬ OrderRepo.FindByID db = .error .errConflict) ∧
    (∀ db : Except DBErr User, ¬ UserRepo.FindByID db = .error .errConflict) ∧
    UserRepo.SaveLegacy (NewUser genID now name email) (some .duplicatedKey) =
      some .invalid := by
  have hval : (NewUser genID now name email).Validate = none :=
    (newUser_validate genID now name email).mpr hu
  refine ⟨rfl, ?_, rfl, ?_, ?_, ?_, ?_⟩
  · simp [UserService.CreateUser, hval, UserRepo.Save, translateError]
  · rintro (_ | (_ | _ | m)) <;> simp [OrderRepo.Save, dbErrToGoError]
  · rintro ((_ | _ | m) | o) <;> simp [OrderRepo.FindByID, dbErrToGoError]
  · rintro ((_ | _ | m) | u) <;> simp [UserRepo.FindByID, dbErrToGoError]
  · simp [UserRepo.SaveLegacy, hval]

/-- Witness for the amended C6: a duplicate email on save surfaces as Conflict
through the refactored repo and service. -/
theorem duplicate_email_conflict_witness :
    UserService.CreateUser (fun _ => UserRepo.Save (some DBErr.duplicatedKey))
      ("u1") 0 ("Bob") ("bob@x.co") = .error .conflict :=
  (duplicate_email_conflict ("u1") 0 ("Bob") ("bob@x.co") (by decide)).2.1

/-- C10: UpdateAvatar stores the supplied string — any string, the empty one
included — verbatim in AvatarURL, never fails (it is a total function), and
leaves ID, Name, Email and CreatedAt unchanged; NewUser always initializes
AvatarURL to the empty string. -/
theorem updateAvatar_frame (u : Avatar.User) (url : String) :
    (u.UpdateAvatar url).AvatarURL = url ∧
    (u.UpdateAvatar url).ID = u.ID ∧ (u.UpdateAvatar url).Name = u.Name ∧
    (u.UpdateAvatar url).Email = u.Email ∧ (u.UpdateAvatar url).CreatedAt = u.CreatedAt ∧
    (∀ genID : String, ∀ now : Int, ∀ name email : String,
      (Avatar.NewUser genID now name email).AvatarURL = "") :=
  ⟨rfl, rfl, rfl, rfl, rfl, fun _ _ _ _ => rfl⟩
